import Mathlib

/-!
Verification of the AOT execution core and segmentation controller of the
openvm repository, as a shallow embedding in Lean 4.

The definitions below are translated from the Rust sources:
* `crates/vm/src/arch/execution_mode/metered/segment_ctx.rs`
* `crates/vm/src/arch/aot/register_ops.rs`
* `extensions/rv32im/circuit/src/base_alu/aot.rs`
* `crates/vm/src/arch/aot/compiler.rs`
* `crates/vm/src/arch/aot/runtime.rs`

Machine integers (`u32`, `u64`, `usize`) are modelled as `Nat`; `u8` casts
and `u8` arithmetic are modelled with explicit `% 256`; `i32` values are
modelled as `Int` obtained from the canonical `u32` by subtracting `2^32`
for values at or above `2^31`.  Sums of `usize` products are modelled as
plain `Nat` sums (the Rust code would panic on overflow in debug builds,
so the mathematical sum is the intended semantics).
-/

/-! ## Segmentation controller (`segment_ctx.rs`) -/

/-- A committed segment, from `struct Segment` in `segment_ctx.rs`. -/
structure Segment where
  instret_start : Nat
  num_insns : Nat
  trace_heights : List Nat
  deriving Repr, DecidableEq

/-- The segmentation limit triple, from `struct SegmentationLimits`. -/
structure SegmentationLimits where
  max_trace_height : Nat
  max_cells : Nat
  max_interactions : Nat
  deriving Repr, DecidableEq

/-- The segmentation controller state, from `struct SegmentationCtx`. -/
structure SegmentationCtx where
  segments : List Segment
  air_names : List String
  widths : List Nat
  interactions : List Nat
  segmentation_limits : SegmentationLimits
  instret_last_segment_check : Nat
  segment_check_insns : Nat
  deriving Repr, DecidableEq

/-- `DEFAULT_SEGMENT_CHECK_INSNS` from `segment_ctx.rs`. -/
def DEFAULT_SEGMENT_CHECK_INSNS : Nat := 1000

namespace SegmentationCtx

/-- `SegmentationCtx::new` (the length asserts become side conditions of the
theorems that need them). -/
def new (air_names : List String) (widths : List Nat) (interactions : List Nat)
    (segmentation_limits : SegmentationLimits) : SegmentationCtx :=
  { segments := []
    air_names := air_names
    widths := widths
    interactions := interactions
    segmentation_limits := segmentation_limits
    segment_check_insns := DEFAULT_SEGMENT_CHECK_INSNS
    instret_last_segment_check := 0 }

/-- The boundary `instret_start` used by both `should_segment` and `segment`:
`self.segments.last().map_or(0, |s| s.instret_start + s.num_insns)`. -/
def lastBoundary (segments : List Segment) : Nat :=
  match segments.getLast? with
  | none => 0
  | some s => s.instret_start + s.num_insns

/-- `SegmentationCtx::calculate_total_cells`:
`trace_heights.iter().zip(widths).map(|(h, w)| h as usize * w).sum()`. -/
def calculate_total_cells (ctx : SegmentationCtx) (trace_heights : List Nat) : Nat :=
  ((trace_heights.zip ctx.widths).map (fun p => p.1 * p.2)).sum

/-- `SegmentationCtx::calculate_total_interactions`:
`trace_heights.iter().zip(interactions).map(|(h, n)| (h + 1) as usize * n).sum()`. -/
def calculate_total_interactions (ctx : SegmentationCtx) (trace_heights : List Nat) : Nat :=
  ((trace_heights.zip ctx.interactions).map (fun p => (p.1 + 1) * p.2)).sum

/-- `SegmentationCtx::should_segment`.  The `for` loop with early `return
true` is rendered as `List.any` over the zipped heights and constancy flags;
the `u64` subtraction `instret - instret_start` is truncated `Nat`
subtraction (the code only ever runs with `instret ≥ instret_start`). -/
def should_segment (ctx : SegmentationCtx) (instret : Nat) (trace_heights : List Nat)
    (is_trace_height_constant : List Bool) : Bool :=
  let instret_start := lastBoundary ctx.segments
  let num_insns := instret - instret_start
  if num_insns = 0 then
    false
  else if (trace_heights.zip is_trace_height_constant).any
      (fun p => !p.2 && decide (ctx.segmentation_limits.max_trace_height < p.1)) then
    true
  else if ctx.segmentation_limits.max_cells < calculate_total_cells ctx trace_heights then
    true
  else if ctx.segmentation_limits.max_interactions
      < calculate_total_interactions ctx trace_heights then
    true
  else
    false

/-- `SegmentationCtx::segment`: append a segment from the last boundary up to
`instret`, copying the given trace heights. -/
def segment (ctx : SegmentationCtx) (instret : Nat) (trace_heights : List Nat) :
    SegmentationCtx :=
  let instret_start := lastBoundary ctx.segments
  let num_insns := instret - instret_start
  { ctx with
      segments := ctx.segments ++ [{ instret_start := instret_start
                                     num_insns := num_insns
                                     trace_heights := trace_heights }] }

/-- `SegmentationCtx::check_and_segment`: decide, possibly append, always
update `instret_last_segment_check`, and return the decision. -/
def check_and_segment (ctx : SegmentationCtx) (instret : Nat) (trace_heights : List Nat)
    (is_trace_height_constant : List Bool) : Bool × SegmentationCtx :=
  let ret := should_segment ctx instret trace_heights is_trace_height_constant
  let ctx := if ret then segment ctx instret trace_heights else ctx
  let ctx := { ctx with instret_last_segment_check := instret }
  (ret, ctx)

end SegmentationCtx

/-! ## Register file abstraction (`register_ops.rs`)

`VmExecState` is modelled with the fields the register operations touch:
the guest memory (a map from address space and pointer to a 32-bit word,
since every access in `register_ops.rs` is a 4-byte little-endian word at
the pointer it passes) plus the `pc` and `instret` cells.  Register
buffers (`[u32; 32]` in Rust) are modelled as functions `Nat → Nat`. -/

/-- `RV32_REGISTER_AS` from `openvm_instructions::riscv`. -/
def RV32_REGISTER_AS : Nat := 1

/-- `RV32_IMM_AS` from `openvm_instructions::riscv`. -/
def RV32_IMM_AS : Nat := 0

/-- The slice of `VmExecState` that the AOT register operations use. -/
structure VmExecState where
  mem : Nat → Nat → Nat
  pc : Nat
  instret : Nat

/-- Write one word into guest memory at `(address_space, ptr)`. -/
def VmExecState.writeMem (s : VmExecState) (addressSpace ptr v : Nat) : VmExecState :=
  { s with mem := fun a p => if a = addressSpace ∧ p = ptr then v else s.mem a p }

namespace VmExecState

/-- `AotRegisterOps::read_register`: index 0 reads as zero, otherwise read
the word at `(RV32_REGISTER_AS, reg)`. -/
def read_register (s : VmExecState) (reg : Nat) : Nat :=
  if reg = 0 then 0
  else s.mem RV32_REGISTER_AS reg

/-- `AotRegisterOps::write_register`: index 0 is a no-op, otherwise write
the word at `(RV32_REGISTER_AS, reg)`. -/
def write_register (s : VmExecState) (reg : Nat) (value : Nat) : VmExecState :=
  if reg = 0 then s
  else s.writeMem RV32_REGISTER_AS reg value

/-- Update one slot of a register buffer. -/
def setIdx (buffer : Nat → Nat) (i v : Nat) : Nat → Nat :=
  fun j => if j = i then v else buffer j

/-- `AotRegisterOps::read_all_registers`: `buffer[0] = 0` followed by the
loop `for i in 1..32 { buffer[i] = read_register(i) }`. -/
def read_all_registers (s : VmExecState) (buffer : Nat → Nat) : Nat → Nat :=
  (List.range' 1 31).foldl (fun buf i => setIdx buf i (s.read_register i))
    (setIdx buffer 0 0)

/-- `AotRegisterOps::write_all_registers`: the loop
`for i in 1..32 { write_register(i, buffer[i]) }` (index 0 skipped). -/
def write_all_registers (s : VmExecState) (buffer : Nat → Nat) : VmExecState :=
  (List.range' 1 31).foldl (fun st i => st.write_register i (buffer i)) s

end VmExecState

/-- `openvm_sync_registers_to_memory`: the loop
`for i in 1..32 { state.write_register(i, registers[i]) }`. -/
def openvm_sync_registers_to_memory (state : VmExecState) (register_buffer : Nat → Nat) :
    VmExecState :=
  (List.range' 1 31).foldl (fun st i => st.write_register i (register_buffer i)) state

/-- `openvm_sync_registers_from_memory`: `registers[0] = 0` followed by the
loop `for i in 1..32 { registers[i] = state.read_register(i) }`. -/
def openvm_sync_registers_from_memory (state : VmExecState) (register_buffer : Nat → Nat) :
    Nat → Nat :=
  (List.range' 1 31).foldl (fun buf i => VmExecState.setIdx buf i (state.read_register i))
    (VmExecState.setIdx register_buffer 0 0)

/-! ## Base-ALU AOT emitter (`base_alu/aot.rs`)

Each `format!` template in the Rust source is a string whose lines are
separated by embedded newlines; a fragment is modelled as the list of those
lines (the Rust string is their intercalation with a newline).  `u8`
parameters carry their cast (`% 256`), the in-template `u8` products
`reg * 4` wrap with `% 256`, and `i32` immediates are `Int`. -/

/-- `BaseAluOpcode` from `openvm_rv32im_transpiler`. -/
inductive BaseAluOpcode where
  | ADD | SUB | XOR | OR | AND
  deriving Repr, DecidableEq

/-- `StaticProgramError` (the variant the base-ALU emitter raises). -/
inductive StaticProgramError where
  | InvalidInstruction (pc : Nat)
  deriving Repr, DecidableEq

/-- A decoded instruction as the base-ALU emitter sees it: the local opcode
(`BaseAluOpcode::from_usize(inst.opcode.local_opcode_idx(offset))`) and the
canonical `u32` values of the operand fields `a`..`e`. -/
structure Instruction where
  opcode : BaseAluOpcode
  a : Nat
  b : Nat
  c : Nat
  d : Nat
  e : Nat
  deriving Repr, DecidableEq

/-- The `as i32` reinterpretation of a canonical `u32` value. -/
def i32_of_u32 (c : Nat) : Int :=
  if c < 2147483648 then (c : Int) else (c : Int) - 4294967296

/-- The `as u32` reinterpretation of an `i32` value. -/
def u32_of_i32 (v : Int) : Nat := (v.emod 4294967296).toNat

/-- `generate_add_imm_assembly`. -/
def generate_add_imm_assembly (rd rs1 : Nat) (imm : Int) : List String :=
  if rs1 = 0 then
    ["    ; addi x" ++ toString rd ++ ", x" ++ toString rs1 ++ ", " ++ toString imm
        ++ " (rd=rs1+imm)",
     "    mov dword ptr [rbx + " ++ toString (rd * 4 % 256) ++ "], " ++ toString imm
        ++ "  ; x" ++ toString rd ++ " = " ++ toString imm]
  else
    ["    ; addi x" ++ toString rd ++ ", x" ++ toString rs1 ++ ", " ++ toString imm
        ++ " (rd=rs1+imm)",
     "    mov r15d, dword ptr [rbx + " ++ toString (rs1 * 4 % 256) ++ "] ; Load x"
        ++ toString rs1,
     "    add r15d, " ++ toString imm ++ "                  ; Add immediate",
     "    mov dword ptr [rbx + " ++ toString (rd * 4 % 256) ++ "], r15d ; Store to x"
        ++ toString rd]

/-- `generate_add_reg_assembly`. -/
def generate_add_reg_assembly (rd rs1 rs2 : Nat) : List String :=
  if rs1 = 0 ∧ rs2 = 0 then
    ["    ; add x" ++ toString rd ++ ", x" ++ toString rs1 ++ ", x" ++ toString rs2
        ++ " (rd=rs1+rs2)",
     "    mov dword ptr [rbx + " ++ toString (rd * 4 % 256) ++ "], 0  ; x"
        ++ toString rd ++ " = 0+0"]
  else if rs1 = 0 then
    ["    ; add x" ++ toString rd ++ ", x" ++ toString rs1 ++ ", x" ++ toString rs2
        ++ " (rd=rs1+rs2)",
     "    mov r15d, dword ptr [rbx + " ++ toString (rs2 * 4 % 256) ++ "] ; Load x"
        ++ toString rs2,
     "    mov dword ptr [rbx + " ++ toString (rd * 4 % 256) ++ "], r15d ; Store to x"
        ++ toString rd ++ " (0+rs2 = rs2)"]
  else if rs2 = 0 then
    ["    ; add x" ++ toString rd ++ ", x" ++ toString rs1 ++ ", x" ++ toString rs2
        ++ " (rd=rs1+rs2)",
     "    mov r15d, dword ptr [rbx + " ++ toString (rs1 * 4 % 256) ++ "] ; Load x"
        ++ toString rs1,
     "    mov dword ptr [rbx + " ++ toString (rd * 4 % 256) ++ "], r15d ; Store to x"
        ++ toString rd ++ " (rs1+0 = rs1)"]
  else
    ["    ; add x" ++ toString rd ++ ", x" ++ toString rs1 ++ ", x" ++ toString rs2
        ++ " (rd=rs1+rs2)",
     "    mov r15d, dword ptr [rbx + " ++ toString (rs1 * 4 % 256) ++ "] ; Load x"
        ++ toString rs1,
     "    add r15d, dword ptr [rbx + " ++ toString (rs2 * 4 % 256) ++ "] ; Add x"
        ++ toString rs2,
     "    mov dword ptr [rbx + " ++ toString (rd * 4 % 256) ++ "], r15d ; Store to x"
        ++ toString rd]

/-- `generate_sub_imm_assembly` (the folded branch prints `(-imm) as u32`). -/
def generate_sub_imm_assembly (rd rs1 : Nat) (imm : Int) : List String :=
  if rs1 = 0 then
    ["    ; subi x" ++ toString rd ++ ", x" ++ toString rs1 ++ ", " ++ toString imm
        ++ " (rd=rs1-imm)",
     "    mov dword ptr [rbx + " ++ toString (rd * 4 % 256) ++ "], "
        ++ toString (u32_of_i32 (-imm)) ++ "  ; x" ++ toString rd ++ " = 0-" ++ toString imm]
  else
    ["    ; subi x" ++ toString rd ++ ", x" ++ toString rs1 ++ ", " ++ toString imm
        ++ " (rd=rs1-imm)",
     "    mov r15d, dword ptr [rbx + " ++ toString (rs1 * 4 % 256) ++ "] ; Load x"
        ++ toString rs1,
     "    sub r15d, " ++ toString imm ++ "                  ; Subtract immediate",
     "    mov dword ptr [rbx + " ++ toString (rd * 4 % 256) ++ "], r15d ; Store to x"
        ++ toString rd]

/-- `generate_sub_reg_assembly`. -/
def generate_sub_reg_assembly (rd rs1 rs2 : Nat) : List String :=
  if rs1 = 0 ∧ rs2 = 0 then
    ["    ; sub x" ++ toString rd ++ ", x" ++ toString rs1 ++ ", x" ++ toString rs2
        ++ " (rd=rs1-rs2)",
     "    mov dword ptr [rbx + " ++ toString (rd * 4 % 256) ++ "], 0  ; x"
        ++ toString rd ++ " = 0-0"]
  else if rs1 = 0 then
    ["    ; sub x" ++ toString rd ++ ", x" ++ toString rs1 ++ ", x" ++ toString rs2
        ++ " (rd=rs1-rs2)",
     "    mov r15d, dword ptr [rbx + " ++ toString (rs2 * 4 % 256) ++ "] ; Load x"
        ++ toString rs2,
     "    neg r15d                      ; Negate (0-rs2)",
     "    mov dword ptr [rbx + " ++ toString (rd * 4 % 256) ++ "], r15d ; Store to x"
        ++ toString rd]
  else if rs2 = 0 then
    ["    ; sub x" ++ toString rd ++ ", x" ++ toString rs1 ++ ", x" ++ toString rs2
        ++ " (rd=rs1-rs2)",
     "    mov r15d, dword ptr [rbx + " ++ toString (rs1 * 4 % 256) ++ "] ; Load x"
        ++ toString rs1,
     "    mov dword ptr [rbx + " ++ toString (rd * 4 % 256) ++ "], r15d ; Store to x"
        ++ toString rd ++ " (rs1-0 = rs1)"]
  else
    ["    ; sub x" ++ toString rd ++ ", x" ++ toString rs1 ++ ", x" ++ toString rs2
        ++ " (rd=rs1-rs2)",
     "    mov r15d, dword ptr [rbx + " ++ toString (rs1 * 4 % 256) ++ "] ; Load x"
        ++ toString rs1,
     "    sub r15d, dword ptr [rbx + " ++ toString (rs2 * 4 % 256) ++ "] ; Subtract x"
        ++ toString rs2,
     "    mov dword ptr [rbx + " ++ toString (rd * 4 % 256) ++ "], r15d ; Store to x"
        ++ toString rd]

/-- `generate_xor_imm_assembly` (the folded branch prints `imm as u32`). -/
def generate_xor_imm_assembly (rd rs1 : Nat) (imm : Int) : List String :=
  if rs1 = 0 then
    ["    ; xori x" ++ toString rd ++ ", x" ++ toString rs1 ++ ", " ++ toString imm
        ++ " (rd=rs1^imm)",
     "    mov dword ptr [rbx + " ++ toString (rd * 4 % 256) ++ "], "
        ++ toString (u32_of_i32 imm) ++ "  ; x" ++ toString rd ++ " = 0^" ++ toString imm]
  else
    ["    ; xori x" ++ toString rd ++ ", x" ++ toString rs1 ++ ", " ++ toString imm
        ++ " (rd=rs1^imm)",
     "    mov r15d, dword ptr [rbx + " ++ toString (rs1 * 4 % 256) ++ "] ; Load x"
        ++ toString rs1,
     "    xor r15d, " ++ toString imm ++ "                  ; XOR immediate",
     "    mov dword ptr [rbx + " ++ toString (rd * 4 % 256) ++ "], r15d ; Store to x"
        ++ toString rd]

/-- `generate_xor_reg_assembly`. -/
def generate_xor_reg_assembly (rd rs1 rs2 : Nat) : List String :=
  if rs1 = 0 ∧ rs2 = 0 then
    ["    ; xor x" ++ toString rd ++ ", x" ++ toString rs1 ++ ", x" ++ toString rs2
        ++ " (rd=rs1^rs2)",
     "    mov dword ptr [rbx + " ++ toString (rd * 4 % 256) ++ "], 0  ; x"
        ++ toString rd ++ " = 0^0"]
  else if rs1 = 0 then
    ["    ; xor x" ++ toString rd ++ ", x" ++ toString rs1 ++ ", x" ++ toString rs2
        ++ " (rd=rs1^rs2)",
     "    mov r15d, dword ptr [rbx + " ++ toString (rs2 * 4 % 256) ++ "] ; Load x"
        ++ toString rs2,
     "    mov dword ptr [rbx + " ++ toString (rd * 4 % 256) ++ "], r15d ; Store to x"
        ++ toString rd ++ " (0^rs2 = rs2)"]
  else if rs2 = 0 then
    ["    ; xor x" ++ toString rd ++ ", x" ++ toString rs1 ++ ", x" ++ toString rs2
        ++ " (rd=rs1^rs2)",
     "    mov r15d, dword ptr [rbx + " ++ toString (rs1 * 4 % 256) ++ "] ; Load x"
        ++ toString rs1,
     "    mov dword ptr [rbx + " ++ toString (rd * 4 % 256) ++ "], r15d ; Store to x"
        ++ toString rd ++ " (rs1^0 = rs1)"]
  else
    ["    ; xor x" ++ toString rd ++ ", x" ++ toString rs1 ++ ", x" ++ toString rs2
        ++ " (rd=rs1^rs2)",
     "    mov r15d, dword ptr [rbx + " ++ toString (rs1 * 4 % 256) ++ "] ; Load x"
        ++ toString rs1,
     "    xor r15d, dword ptr [rbx + " ++ toString (rs2 * 4 % 256) ++ "] ; XOR x"
        ++ toString rs2,
     "    mov dword ptr [rbx + " ++ toString (rd * 4 % 256) ++ "], r15d ; Store to x"
        ++ toString rd]

/-- `generate_or_imm_assembly` (the folded branch prints `imm as u32`). -/
def generate_or_imm_assembly (rd rs1 : Nat) (imm : Int) : List String :=
  if rs1 = 0 then
    ["    ; ori x" ++ toString rd ++ ", x" ++ toString rs1 ++ ", " ++ toString imm
        ++ " (rd=rs1|imm)",
     "    mov dword ptr [rbx + " ++ toString (rd * 4 % 256) ++ "], "
        ++ toString (u32_of_i32 imm) ++ "  ; x" ++ toString rd ++ " = 0|" ++ toString imm]
  else
    ["    ; ori x" ++ toString rd ++ ", x" ++ toString rs1 ++ ", " ++ toString imm
        ++ " (rd=rs1|imm)",
     "    mov r15d, dword ptr [rbx + " ++ toString (rs1 * 4 % 256) ++ "] ; Load x"
        ++ toString rs1,
     "    or r15d, " ++ toString imm ++ "                   ; OR immediate",
     "    mov dword ptr [rbx + " ++ toString (rd * 4 % 256) ++ "], r15d ; Store to x"
        ++ toString rd]

/-- `generate_or_reg_assembly`. -/
def generate_or_reg_assembly (rd rs1 rs2 : Nat) : List String :=
  if rs1 = 0 ∧ rs2 = 0 then
    ["    ; or x" ++ toString rd ++ ", x" ++ toString rs1 ++ ", x" ++ toString rs2
        ++ " (rd=rs1|rs2)",
     "    mov dword ptr [rbx + " ++ toString (rd * 4 % 256) ++ "], 0  ; x"
        ++ toString rd ++ " = 0|0"]
  else if rs1 = 0 then
    ["    ; or x" ++ toString rd ++ ", x" ++ toString rs1 ++ ", x" ++ toString rs2
        ++ " (rd=rs1|rs2)",
     "    mov r15d, dword ptr [rbx + " ++ toString (rs2 * 4 % 256) ++ "] ; Load x"
        ++ toString rs2,
     "    mov dword ptr [rbx + " ++ toString (rd * 4 % 256) ++ "], r15d ; Store to x"
        ++ toString rd ++ " (0|rs2 = rs2)"]
  else if rs2 = 0 then
    ["    ; or x" ++ toString rd ++ ", x" ++ toString rs1 ++ ", x" ++ toString rs2
        ++ " (rd=rs1|rs2)",
     "    mov r15d, dword ptr [rbx + " ++ toString (rs1 * 4 % 256) ++ "] ; Load x"
        ++ toString rs1,
     "    mov dword ptr [rbx + " ++ toString (rd * 4 % 256) ++ "], r15d ; Store to x"
        ++ toString rd ++ " (rs1|0 = rs1)"]
  else
    ["    ; or x" ++ toString rd ++ ", x" ++ toString rs1 ++ ", x" ++ toString rs2
        ++ " (rd=rs1|rs2)",
     "    mov r15d, dword ptr [rbx + " ++ toString (rs1 * 4 % 256) ++ "] ; Load x"
        ++ toString rs1,
     "    or r15d, dword ptr [rbx + " ++ toString (rs2 * 4 % 256) ++ "]  ; OR x"
        ++ toString rs2,
     "    mov dword ptr [rbx + " ++ toString (rd * 4 % 256) ++ "], r15d ; Store to x"
        ++ toString rd]

/-- `generate_and_imm_assembly`. -/
def generate_and_imm_assembly (rd rs1 : Nat) (imm : Int) : List String :=
  if rs1 = 0 then
    ["    ; andi x" ++ toString rd ++ ", x" ++ toString rs1 ++ ", " ++ toString imm
        ++ " (rd=rs1&imm)",
     "    mov dword ptr [rbx + " ++ toString (rd * 4 % 256) ++ "], 0  ; x"
        ++ toString rd ++ " = 0&" ++ toString imm ++ " = 0"]
  else
    ["    ; andi x" ++ toString rd ++ ", x" ++ toString rs1 ++ ", " ++ toString imm
        ++ " (rd=rs1&imm)",
     "    mov r15d, dword ptr [rbx + " ++ toString (rs1 * 4 % 256) ++ "] ; Load x"
        ++ toString rs1,
     "    and r15d, " ++ toString imm ++ "                  ; AND immediate",
     "    mov dword ptr [rbx + " ++ toString (rd * 4 % 256) ++ "], r15d ; Store to x"
        ++ toString rd]

/-- `generate_and_reg_assembly`: any zero source folds to a zero store. -/
def generate_and_reg_assembly (rd rs1 rs2 : Nat) : List String :=
  if rs1 = 0 ∨ rs2 = 0 then
    ["    ; and x" ++ toString rd ++ ", x" ++ toString rs1 ++ ", x" ++ toString rs2
        ++ " (rd=rs1&rs2)",
     "    mov dword ptr [rbx + " ++ toString (rd * 4 % 256) ++ "], 0  ; x"
        ++ toString rd ++ " = X&0 = 0"]
  else
    ["    ; and x" ++ toString rd ++ ", x" ++ toString rs1 ++ ", x" ++ toString rs2
        ++ " (rd=rs1&rs2)",
     "    mov r15d, dword ptr [rbx + " ++ toString (rs1 * 4 % 256) ++ "] ; Load x"
        ++ toString rs1,
     "    and r15d, dword ptr [rbx + " ++ toString (rs2 * 4 % 256) ++ "] ; AND x"
        ++ toString rs2,
     "    mov dword ptr [rbx + " ++ toString (rd * 4 % 256) ++ "], r15d ; Store to x"
        ++ toString rd]

namespace BaseAluExecutor

/-- `BaseAluExecutor::generate_aot_assembly`: validate the operand format
(`d` must be the register address space, `e` the register or the immediate
address space) and dispatch on `(is_imm, local_opcode)`. -/
def generate_aot_assembly (pc : Nat) (inst : Instruction) :
    Except StaticProgramError (Option (List String)) :=
  let d_val := inst.d
  let e_val := inst.e
  if d_val ≠ RV32_REGISTER_AS then
    .error (.InvalidInstruction pc)
  else
    let rd := inst.a % 256
    let rs1 := inst.b % 256
    let is_imm := e_val = RV32_IMM_AS
    if ¬ is_imm ∧ e_val ≠ RV32_REGISTER_AS then
      .error (.InvalidInstruction pc)
    else
      let assembly :=
        match inst.opcode with
        | .ADD =>
          if is_imm then generate_add_imm_assembly rd rs1 (i32_of_u32 inst.c)
          else generate_add_reg_assembly rd rs1 (inst.c % 256)
        | .SUB =>
          if is_imm then generate_sub_imm_assembly rd rs1 (i32_of_u32 inst.c)
          else generate_sub_reg_assembly rd rs1 (inst.c % 256)
        | .XOR =>
          if is_imm then generate_xor_imm_assembly rd rs1 (i32_of_u32 inst.c)
          else generate_xor_reg_assembly rd rs1 (inst.c % 256)
        | .OR =>
          if is_imm then generate_or_imm_assembly rd rs1 (i32_of_u32 inst.c)
          else generate_or_reg_assembly rd rs1 (inst.c % 256)
        | .AND =>
          if is_imm then generate_and_imm_assembly rd rs1 (i32_of_u32 inst.c)
          else generate_and_reg_assembly rd rs1 (inst.c % 256)
      .ok (some assembly)

end BaseAluExecutor

/-! ## AOT compiler (`compiler.rs`)

The compiler accumulates its assembly text one `writeln!` at a time; the
buffer is modelled as the list of written chunks (an emitter fragment, a
single multi-line `writeln!`, contributes its lines).  `{:08x}` formatting
is `hex8`. -/

/-- Zero-padded lowercase hexadecimal of width (at least) 8, Rust `{:08x}`. -/
def hex8 (n : Nat) : String :=
  let s := Nat.toDigits 16 n
  String.mk (List.replicate (8 - s.length) '0' ++ s)

/-- A program together with its entry pc, the slice of `VmExe` the compiler
reads.  `program` lists the defined instructions in pc order, as
`Program::enumerate_by_pc` yields them. -/
structure VmExe where
  program : List (Nat × Instruction)
  pc_start : Nat

/-- The type of a `generate_aot_assembly` capability (`AotExecutor`). -/
abbrev AotEmitter := Nat → Instruction → Except StaticProgramError (Option (List String))

/-- The emitter search loop of `generate_program_assembly` (first emitter to
claim the instruction wins; `?` propagates errors). -/
def emitterSearch : List AotEmitter → Nat → Instruction →
    Except StaticProgramError (Option (List String))
  | [], _, _ => .ok none
  | ex :: rest, pc, inst =>
    match ex pc inst with
    | .error e => .error e
    | .ok (some s) => .ok (some s)
    | .ok none => emitterSearch rest pc inst

namespace AotCompiler

/-- `AotCompiler::generate_header`, line by line. -/
def generate_header (exe : VmExe) : List String :=
  ["; OpenVM AOT Generated Assembly",
   "; Program: " ++ toString exe.program.length ++ " instructions",
   "; Entry PC: 0x" ++ hex8 exe.pc_start,
   "",
   "section .text",
   "global openvm_aot_entry",
   "extern openvm_aot_handler",
   "extern openvm_sync_registers_to_memory",
   "extern openvm_sync_registers_from_memory",
   "",
   "openvm_aot_start:",
   "    ; Function signature:",
   "    ; rdi = pre_compute ptr",
   "    ; rsi = instret ptr",
   "    ; rdx = pc ptr",
   "    ; rcx = arg",
   "    ; r8  = state ptr (AotExecState)",
   "",
   "    ; Save callee-saved registers",
   "    push rbp",
   "    mov rbp, rsp",
   "    push rbx",
   "    push r12",
   "    push r13",
   "    push r14",
   "    push r15",
   "",
   "    ; Allocate local register array",
   "    sub rsp, 128              ; 32 registers * 4 bytes",
   "",
   "    ; Set up register allocation",
   "    mov rbx, rsp              ; rbx = local register array",
   "    mov r12, rdi              ; r12 = pre_compute",
   "    mov r13, r8               ; r13 = state ptr",
   "    mov r14, rdx              ; r14 = pc ptr",
   "",
   "    ; Load registers from guest memory",
   "    mov rdi, r13              ; state ptr",
   "    mov rsi, rbx              ; register buffer",
   "    call openvm_sync_registers_from_memory",
   "",
   "    ; Load initial PC and jump",
   "    mov eax, [r14]            ; Load PC",
   "    cmp eax, " ++ hex8 exe.pc_start ++ "h",
   "    jne .fallback_handler",
   "    jmp .pc_" ++ hex8 exe.pc_start,
   ""]

/-- `AotCompiler::generate_footer`, line by line. -/
def generate_footer : List String :=
  [".fallback_handler:",
   "    ; Sync registers to guest memory before external call",
   "    push rdi                  ; Save pre_compute ptr",
   "    push rsi                  ; Save instret ptr",
   "    push rcx                  ; Save arg",
   "",
   "    mov rdi, r13              ; state ptr",
   "    mov rsi, rbx              ; register buffer",
   "    call openvm_sync_registers_to_memory",
   "",
   "    ; Call external handler for unsupported instruction",
   "    pop rcx                   ; Restore arg",
   "    pop rsi                   ; Restore instret ptr",
   "    pop rdi                   ; Restore pre_compute ptr",
   "    mov rdx, r14              ; pc ptr",
   "    mov r8, r13               ; state",
   "    call openvm_aot_handler",
   "",
   "    ; Sync registers from guest memory after external call",
   "    mov rdi, r13              ; state ptr",
   "    mov rsi, rbx              ; register buffer",
   "    call openvm_sync_registers_from_memory",
   "",
   "    ; Check if we should continue execution",
   "    mov eax, [r14]            ; Load new PC",
   "    jmp .exit",
   "",
   ".dispatch:",
   "    jmp .exit",
   "",
   ".exit:",
   "    ; Clean up stack",
   "    add rsp, 128              ; Remove register array",
   "    ; Restore callee-saved registers",
   "    pop r15",
   "    pop r14",
   "    pop r13",
   "    pop r12",
   "    pop rbx",
   "    pop rbp",
   "    ret"]

/-- `AotCompiler::generate_program_assembly`: one labeled block per
instruction, either the found emitter fragment plus the instret/pc
housekeeping, or the fallback trampoline.  `progLen` is `program.len()`. -/
def generate_program_assembly (progLen : Nat) (aot_executors : List AotEmitter) :
    List (Nat × Instruction) → Except StaticProgramError (List String)
  | [] => .ok []
  | (pc, inst) :: rest =>
    match emitterSearch aot_executors pc inst with
    | .error e => .error e
    | .ok aot_assembly =>
      match generate_program_assembly progLen aot_executors rest with
      | .error e => .error e
      | .ok restLines =>
        let block :=
          match aot_assembly with
          | some fragment =>
            (".pc_" ++ hex8 pc ++ ":") :: fragment ++
            ["    ; Update instret",
             "    mov rax, [rsi]           ; Load instret",
             "    inc rax                  ; Increment",
             "    mov [rsi], rax           ; Store back",
             "    ; Update PC",
             "    mov dword [r14], " ++ hex8 (pc + 4) ++ "h  ; Update PC",
             "    ; Check if next PC is within program bounds",
             "    cmp dword [r14], " ++ hex8 (progLen * 4) ++ "h  ; Compare with program end",
             "    jae .exit                ; Exit if PC >= program end",
             "    jmp .dispatch            ; Otherwise dispatch to next instruction",
             ""]
          | none =>
            [".pc_" ++ hex8 pc ++ ":",
             "    ; No AOT implementation - call external handler",
             "    mov dword [r14], " ++ hex8 pc ++ "h  ; Update PC",
             "    jmp .fallback_handler",
             ""]
        .ok (block ++ restLines)

/-- `AotCompiler::compile`: header, program body, footer; emitter errors
abort the compilation. -/
def compile (exe : VmExe) (aot_executors : List AotEmitter) :
    Except StaticProgramError (List String) :=
  match generate_program_assembly exe.program.length aot_executors exe.program with
  | .error e => .error e
  | .ok body => .ok (generate_header exe ++ body ++ generate_footer)

end AotCompiler

/-! ## AOT runtime (`runtime.rs`) -/

/-- The symbol `AotRuntime::get_entry_point` resolves from the loaded
library: `self.library.get(b"openvm_aot_start")`. -/
def AotRuntime.entry_point_symbol : String := "openvm_aot_start"

/-- Observable effects of `AotRuntimeBuilder::build` on the temporary build
directory and the external tools. -/
inductive BuildEvent where
  | writeFile (name : String)
  | runAssembler
  | runCompiler
  | runLinker
  | loadLibrary
  deriving Repr, DecidableEq

/-- `AotRuntimeBuilder::build`, as the sequence of effects it performs and
its result.  `target_os` stands for the `cfg!(target_os = ...)` host
predicate; the `Bool` parameters give each external tool's exit status and
whether loading succeeds.  Steps, in source order: write `aot.asm`, write
`handler.c`, choose the object format by host OS (failing on other hosts),
assemble, compile the handler, link, load. -/
def AotRuntimeBuilder.build (target_os : String)
    (nasm_ok gcc_ok link_ok load_ok : Bool) :
    List BuildEvent × Except String Unit :=
  let events := [BuildEvent.writeFile "aot.asm", BuildEvent.writeFile "handler.c"]
  if target_os ≠ "macos" ∧ target_os ≠ "linux" then
    (events, .error "Unsupported platform for AOT compilation")
  else
    let events := events ++ [BuildEvent.runAssembler]
    if !nasm_ok then (events, .error "NASM compilation failed")
    else
      let events := events ++ [BuildEvent.runCompiler]
      if !gcc_ok then (events, .error "Handler compilation failed")
      else
        let events := events ++ [BuildEvent.runLinker]
        if !link_ok then (events, .error "Linking failed")
        else
          let events := events ++ [BuildEvent.loadLibrary]
          if !load_ok then (events, .error "load failed")
          else (events, .ok ())

/-! ## Theorems -/

/-- Claim C8: after every call to `check_and_segment(instret, ...)`, the
field `instret_last_segment_check` equals the `instret` argument whether or
not a segment was closed, and no controller field other than `segments`
and `instret_last_segment_check` is modified. -/
theorem check_and_segment_frame (ctx : SegmentationCtx) (instret : Nat)
    (trace_heights : List Nat) (is_const : List Bool) :
    (SegmentationCtx.check_and_segment ctx instret trace_heights is_const).2.instret_last_segment_check
        = instret
    ∧ (SegmentationCtx.check_and_segment ctx instret trace_heights is_const).2.air_names
        = ctx.air_names
    ∧ (SegmentationCtx.check_and_segment ctx instret trace_heights is_const).2.widths
        = ctx.widths
    ∧ (SegmentationCtx.check_and_segment ctx instret trace_heights is_const).2.interactions
        = ctx.interactions
    ∧ (SegmentationCtx.check_and_segment ctx instret trace_heights is_const).2.segmentation_limits
        = ctx.segmentation_limits
    ∧ (SegmentationCtx.check_and_segment ctx instret trace_heights is_const).2.segment_check_insns
        = ctx.segment_check_insns := by
  unfold SegmentationCtx.check_and_segment
  by_cases h : SegmentationCtx.should_segment ctx instret trace_heights is_const <;>
    simp [h, SegmentationCtx.segment]

/-- Claim C9: `check_and_segment` returns `true` exactly when it appended
one segment (the one from the previous boundary to `instret`, carrying the
sampled heights); on `false` the segment list is unchanged. -/
theorem check_and_segment_append_iff (ctx : SegmentationCtx) (instret : Nat)
    (trace_heights : List Nat) (is_const : List Bool) :
    ((SegmentationCtx.check_and_segment ctx instret trace_heights is_const).1 = true ↔
      (SegmentationCtx.check_and_segment ctx instret trace_heights is_const).2.segments
        = ctx.segments ++
          [{ instret_start := SegmentationCtx.lastBoundary ctx.segments
             num_insns := instret - SegmentationCtx.lastBoundary ctx.segments
             trace_heights := trace_heights }])
    ∧ ((SegmentationCtx.check_and_segment ctx instret trace_heights is_const).1 = false →
      (SegmentationCtx.check_and_segment ctx instret trace_heights is_const).2.segments
        = ctx.segments) := by
  unfold SegmentationCtx.check_and_segment
  by_cases h : SegmentationCtx.should_segment ctx instret trace_heights is_const <;>
    simp [h, SegmentationCtx.segment]

/-- Witness for C9 at a concrete controller state: a consultation that does
not segment (heights below every limit) leaves the segment list unchanged. -/
theorem check_and_segment_append_iff_witness :
    (SegmentationCtx.check_and_segment
        (SegmentationCtx.new ["a"] [2] [3] ⟨100, 1000, 1000⟩) 5 [7] [false]).1 = false
    ∧ (SegmentationCtx.check_and_segment
        (SegmentationCtx.new ["a"] [2] [3] ⟨100, 1000, 1000⟩) 5 [7] [false]).2.segments
      = (SegmentationCtx.new ["a"] [2] [3] ⟨100, 1000, 1000⟩).segments :=
  ⟨by decide,
   (check_and_segment_append_iff
      (SegmentationCtx.new ["a"] [2] [3] ⟨100, 1000, 1000⟩) 5 [7] [false]).2 (by decide)⟩

/-- If an index is absent from the fold list, the buffer is unchanged
there. -/
theorem foldl_setIdx_of_forall_ne (l : List Nat) (f : Nat → Nat) (b : Nat → Nat)
    (j : Nat) (h : ∀ i ∈ l, i ≠ j) :
    (l.foldl (fun buf i => VmExecState.setIdx buf i (f i)) b) j = b j := by
  induction l generalizing b with
  | nil => rfl
  | cons x xs ih =>
    simp only [List.foldl_cons]
    rw [ih _ (fun i hi => h i (List.mem_cons_of_mem _ hi))]
    unfold VmExecState.setIdx
    simp [Ne.symm (h x (List.mem_cons_self _ _))]

/-- Closed form of the register write-back loop: it writes the register
address space exactly at the listed (nonzero) offsets. -/
theorem foldl_write_register_mem (l : List Nat) (b : Nat → Nat) (s : VmExecState)
    (h0 : ∀ i ∈ l, i ≠ 0) (a o : Nat) :
    ((l.foldl (fun st i => st.write_register i (b i)) s).mem a o)
      = if a = RV32_REGISTER_AS ∧ o ∈ l then b o else s.mem a o := by
  induction l generalizing s with
  | nil => simp
  | cons x xs ih =>
    have hx : x ≠ 0 := h0 x (List.mem_cons_self _ _)
    simp only [List.foldl_cons]
    rw [ih _ (fun i hi => h0 i (List.mem_cons_of_mem _ hi))]
    unfold VmExecState.write_register VmExecState.writeMem
    simp only [hx, if_neg hx, List.mem_cons]
    by_cases h1 : a = RV32_REGISTER_AS
    · by_cases h2 : o ∈ xs
      · simp [h1, h2]
      · by_cases h3 : o = x <;> simp [h1, h2, h3]
    · simp [h1]

/-- Claim C3: register index 0 is hard-wired to zero: `read_register 0`
yields 0, `write_register 0` is a no-op on the state, the two bulk/FFI
read paths force buffer index 0 to 0, and the two bulk/FFI write paths
copy exactly indices 1..31, never touching register-space offset 0 (or
any other address space). -/
theorem register_zero_discipline :
    (∀ s : VmExecState, s.read_register 0 = 0)
    ∧ (∀ (s : VmExecState) (v : Nat), s.write_register 0 v = s)
    ∧ (∀ (s : VmExecState) (buffer : Nat → Nat), s.read_all_registers buffer 0 = 0)
    ∧ (∀ (s : VmExecState) (buffer : Nat → Nat),
        openvm_sync_registers_from_memory s buffer 0 = 0)
    ∧ (∀ (s : VmExecState) (buffer : Nat → Nat) (a o : Nat),
        (s.write_all_registers buffer).mem a o
          = if a = RV32_REGISTER_AS ∧ 1 ≤ o ∧ o ≤ 31 then buffer o else s.mem a o)
    ∧ (∀ (s : VmExecState) (buffer : Nat → Nat) (a o : Nat),
        (openvm_sync_registers_to_memory s buffer).mem a o
          = if a = RV32_REGISTER_AS ∧ 1 ≤ o ∧ o ≤ 31 then buffer o else s.mem a o) := by
  have hne : ∀ i ∈ List.range' 1 31, i ≠ 0 := by
    intro i hi
    rw [List.mem_range'_1] at hi
    omega
  refine ⟨fun s => rfl, fun s v => rfl, ?_, ?_, ?_, ?_⟩
  · intro s buffer
    unfold VmExecState.read_all_registers
    rw [foldl_setIdx_of_forall_ne _ _ _ _ hne]
    rfl
  · intro s buffer
    unfold openvm_sync_registers_from_memory
    rw [foldl_setIdx_of_forall_ne _ _ _ _ hne]
    rfl
  · intro s buffer a o
    unfold VmExecState.write_all_registers
    rw [foldl_write_register_mem _ _ _ hne]
    exact if_congr (and_congr_right fun _ => by rw [List.mem_range'_1]; omega) rfl rfl
  · intro s buffer a o
    unfold openvm_sync_registers_to_memory
    rw [foldl_write_register_mem _ _ _ hne]
    exact if_congr (and_congr_right fun _ => by rw [List.mem_range'_1]; omega) rfl rfl

/-- The early-return height scan succeeds exactly when some index holds a
non-constant height above the bound. -/
theorem any_zip_height_iff (M : Nat) :
    ∀ (th : List Nat) (const : List Bool), th.length = const.length →
    (((th.zip const).any fun p => !p.2 && decide (M < p.1)) = true ↔
      ∃ i, i < th.length ∧ const.getD i true = false ∧ M < th.getD i 0) := by
  intro th
  induction th with
  | nil =>
    intro const h
    simp
  | cons x xs ih =>
    intro const hlen
    cases const with
    | nil => simp at hlen
    | cons c cs =>
      simp only [List.zip_cons_cons, List.any_cons, Bool.or_eq_true, Bool.and_eq_true,
        Bool.not_eq_true', decide_eq_true_eq, List.length_cons]
      rw [ih cs (by simpa using hlen)]
      constructor
      · rintro (⟨hc, hM⟩ | ⟨i, hi, hci, hMi⟩)
        · exact ⟨0, Nat.succ_pos _, by simpa using hc, by simpa using hM⟩
        · exact ⟨i + 1, by omega, by simpa using hci, by simpa using hMi⟩
      · rintro ⟨i, hi, hci, hMi⟩
        cases i with
        | zero => exact Or.inl ⟨by simpa using hci, by simpa using hMi⟩
        | succ j =>
          exact Or.inr ⟨j, by omega, by simpa using hci, by simpa using hMi⟩

/-- A zipped-map sum is the indexed sum over the first list's range. -/
theorem zip_map_sum_eq (f : Nat → Nat → Nat) :
    ∀ (xs ys : List Nat), xs.length = ys.length →
    ((xs.zip ys).map fun p => f p.1 p.2).sum
      = Finset.sum (Finset.range xs.length) (fun i => f (xs.getD i 0) (ys.getD i 0)) := by
  intro xs
  induction xs with
  | nil =>
    intro ys h
    simp
  | cons x xs ih =>
    intro ys hlen
    cases ys with
    | nil => simp at hlen
    | cons y ys =>
      simp only [List.zip_cons_cons, List.map_cons, List.sum_cons, List.length_cons]
      rw [Finset.sum_range_succ' (fun i => f ((x :: xs).getD i 0) ((y :: ys).getD i 0))
        xs.length]
      simp only [List.getD_cons_succ, List.getD_cons_zero]
      rw [ih ys (by simpa using hlen)]
      omega

/-- Claim C1: when at least one instruction has been retired since the last
boundary, the controller decides to segment iff some non-constant AIR
exceeds `max_trace_height`, or the cell sum exceeds `max_cells`, or the
padded interaction sum exceeds `max_interactions`; constant-flagged AIRs
are exempt from the height check but still appear in both sums. -/
theorem should_segment_iff (ctx : SegmentationCtx) (instret : Nat)
    (th : List Nat) (is_const : List Bool)
    (hlen : th.length = is_const.length)
    (hw : th.length = ctx.widths.length)
    (hi : th.length = ctx.interactions.length)
    (hret : SegmentationCtx.lastBoundary ctx.segments < instret) :
    SegmentationCtx.should_segment ctx instret th is_const = true ↔
      ((∃ i, i < th.length ∧ is_const.getD i true = false
          ∧ ctx.segmentation_limits.max_trace_height < th.getD i 0)
       ∨ ctx.segmentation_limits.max_cells
          < Finset.sum (Finset.range th.length)
              (fun i => th.getD i 0 * ctx.widths.getD i 0)
       ∨ ctx.segmentation_limits.max_interactions
          < Finset.sum (Finset.range th.length)
              (fun i => (th.getD i 0 + 1) * ctx.interactions.getD i 0)) := by
  have hnum : ¬ (instret - SegmentationCtx.lastBoundary ctx.segments = 0) := by omega
  have hcells : SegmentationCtx.calculate_total_cells ctx th
      = Finset.sum (Finset.range th.length) (fun i => th.getD i 0 * ctx.widths.getD i 0) :=
    zip_map_sum_eq (fun a b => a * b) th ctx.widths hw
  have hinter : SegmentationCtx.calculate_total_interactions ctx th
      = Finset.sum (Finset.range th.length)
          (fun i => (th.getD i 0 + 1) * ctx.interactions.getD i 0) :=
    zip_map_sum_eq (fun a b => (a + 1) * b) th ctx.interactions hi
  have hheight := any_zip_height_iff ctx.segmentation_limits.max_trace_height th is_const hlen
  unfold SegmentationCtx.should_segment
  rw [if_neg hnum]
  split_ifs with h1 h2 h3
  · simp only [true_iff]
    exact Or.inl (hheight.mp h1)
  · simp only [true_iff]
    exact Or.inr (Or.inl (hcells ▸ h2))
  · simp only [true_iff]
    exact Or.inr (Or.inr (hinter ▸ h3))
  · simp only [false_iff]
    rintro (hh | hc | hn)
    · exact h1 (hheight.mpr hh)
    · exact h2 (hcells ▸ hc)
    · exact h3 (hinter ▸ hn)

/-- Witness for C1 at a concrete controller: one non-constant AIR of width 2
and 3 interactions per row, a height sample of 7 after 5 instructions. -/
theorem should_segment_iff_witness :
    (([7] : List Nat).length = ([false] : List Bool).length)
    ∧ (SegmentationCtx.should_segment
        (SegmentationCtx.new ["a"] [2] [3] ⟨100, 1000, 1000⟩) 5 [7] [false] = true ↔
      ((∃ i, i < ([7] : List Nat).length ∧ ([false] : List Bool).getD i true = false
          ∧ (100 : Nat) < ([7] : List Nat).getD i 0)
       ∨ (1000 : Nat) < Finset.sum (Finset.range ([7] : List Nat).length)
            (fun i => ([7] : List Nat).getD i 0 * ([2] : List Nat).getD i 0)
       ∨ (1000 : Nat) < Finset.sum (Finset.range ([7] : List Nat).length)
            (fun i => (([7] : List Nat).getD i 0 + 1) * ([3] : List Nat).getD i 0))) :=
  ⟨rfl,
   should_segment_iff (SegmentationCtx.new ["a"] [2] [3] ⟨100, 1000, 1000⟩) 5 [7] [false]
     rfl rfl rfl (by decide)⟩

/-- The segment-list well-formedness predicate: starting from boundary `b`,
each segment starts where the previous one ended and retires at least one
instruction. -/
def chainedFrom : Nat → List Segment → Prop
  | _, [] => True
  | b, s :: rest => s.instret_start = b ∧ 1 ≤ s.num_insns
      ∧ chainedFrom (s.instret_start + s.num_insns) rest

/-- `lastBoundary` with an explicit default for the empty list. -/
def lastBoundaryD (b : Nat) (segs : List Segment) : Nat :=
  match segs.getLast? with
  | none => b
  | some s => s.instret_start + s.num_insns

theorem lastBoundaryD_zero (segs : List Segment) :
    lastBoundaryD 0 segs = SegmentationCtx.lastBoundary segs := rfl

/-- Appending a segment that starts at the current boundary preserves
well-formedness. -/
theorem chainedFrom_append :
    ∀ (segs : List Segment) (b n : Nat) (th : List Nat), 1 ≤ n →
    chainedFrom b segs →
    chainedFrom b (segs ++ [{ instret_start := lastBoundaryD b segs
                              num_insns := n
                              trace_heights := th }]) := by
  intro segs
  induction segs with
  | nil =>
    intro b n th hn _
    exact ⟨rfl, hn, trivial⟩
  | cons s rest ih =>
    intro b n th hn h
    obtain ⟨hs, hnum, hrest⟩ := h
    have heq : lastBoundaryD b (s :: rest)
        = lastBoundaryD (s.instret_start + s.num_insns) rest := by
      cases rest with
      | nil => rfl
      | cons t ts =>
        unfold lastBoundaryD
        rw [List.getLast?_cons_cons]
        cases hg : (t :: ts).getLast? with
        | none => exact absurd hg (by cases ts <;> simp [List.getLast?])
        | some x => rfl
    refine ⟨hs, hnum, ?_⟩
    rw [heq]
    exact ih (s.instret_start + s.num_insns) n th hn hrest

/-- A `true` decision implies the segment is nonempty. -/
theorem should_segment_num_pos (ctx : SegmentationCtx) (instret : Nat)
    (th : List Nat) (c : List Bool)
    (h : SegmentationCtx.should_segment ctx instret th c = true) :
    instret - SegmentationCtx.lastBoundary ctx.segments ≠ 0 := by
  intro hcon
  simp [SegmentationCtx.should_segment, hcon] at h

/-- One consultation preserves well-formedness of the segment list. -/
theorem check_and_segment_preserves_chained (ctx : SegmentationCtx) (instret : Nat)
    (th : List Nat) (c : List Bool) (h : chainedFrom 0 ctx.segments) :
    chainedFrom 0 (SegmentationCtx.check_and_segment ctx instret th c).2.segments := by
  unfold SegmentationCtx.check_and_segment
  by_cases hs : SegmentationCtx.should_segment ctx instret th c
  · have hn : 1 ≤ instret - SegmentationCtx.lastBoundary ctx.segments :=
      Nat.one_le_iff_ne_zero.mpr (should_segment_num_pos ctx instret th c hs)
    have happ := chainedFrom_append ctx.segments 0
      (instret - SegmentationCtx.lastBoundary ctx.segments) th hn h
    rw [lastBoundaryD_zero] at happ
    simpa [hs, SegmentationCtx.segment] using happ
  · simpa [hs] using h

/-- A whole run of consultations, as the metered interpreter drives them. -/
def runConsultations (ctx : SegmentationCtx)
    (inputs : List (Nat × List Nat × List Bool)) : SegmentationCtx :=
  inputs.foldl (fun c q => (SegmentationCtx.check_and_segment c q.1 q.2.1 q.2.2).2) ctx

theorem runConsultations_chained (inputs : List (Nat × List Nat × List Bool)) :
    ∀ ctx : SegmentationCtx, chainedFrom 0 ctx.segments →
    chainedFrom 0 (runConsultations ctx inputs).segments := by
  induction inputs with
  | nil => intro ctx h; exact h
  | cons q qs ih =>
    intro ctx h
    exact ih _ (check_and_segment_preserves_chained ctx q.1 q.2.1 q.2.2 h)

/-- Claim C2: over every sequence of consultations from a fresh controller,
every committed segment retires at least one instruction, the first
segment starts at 0, consecutive segments chain
(`segments[k+1].instret_start = segments[k].instret_start + segments[k].num_insns`),
and a segmenting consultation at `instret` appends exactly the segment
from the previous boundary with a copy of the sampled heights. -/
theorem segment_list_invariants :
    (∀ (air_names : List String) (widths interactions : List Nat)
        (limits : SegmentationLimits) (inputs : List (Nat × List Nat × List Bool)),
      chainedFrom 0 (runConsultations
        (SegmentationCtx.new air_names widths interactions limits) inputs).segments)
    ∧ (∀ (ctx : SegmentationCtx) (instret : Nat) (th : List Nat) (c : List Bool),
        (SegmentationCtx.check_and_segment ctx instret th c).1 = true →
        (SegmentationCtx.check_and_segment ctx instret th c).2.segments
          = ctx.segments ++
            [{ instret_start := SegmentationCtx.lastBoundary ctx.segments
               num_insns := instret - SegmentationCtx.lastBoundary ctx.segments
               trace_heights := th }]) := by
  constructor
  · intro air_names widths interactions limits inputs
    exact runConsultations_chained inputs _ trivial
  · intro ctx instret th c h
    unfold SegmentationCtx.check_and_segment at *
    by_cases hs : SegmentationCtx.should_segment ctx instret th c
    · simp [hs, SegmentationCtx.segment]
    · simp [hs] at h

/-- Witness for C2: a consultation that trips the height limit appends the
segment `[0, 5)` carrying the sampled heights. -/
theorem segment_list_invariants_witness :
    (SegmentationCtx.check_and_segment
        (SegmentationCtx.new ["a"] [2] [3] ⟨5, 1000, 1000⟩) 5 [7] [false]).1 = true
    ∧ (SegmentationCtx.check_and_segment
        (SegmentationCtx.new ["a"] [2] [3] ⟨5, 1000, 1000⟩) 5 [7] [false]).2.segments
      = (SegmentationCtx.new ["a"] [2] [3] ⟨5, 1000, 1000⟩).segments ++
        [{ instret_start := SegmentationCtx.lastBoundary
             (SegmentationCtx.new ["a"] [2] [3] ⟨5, 1000, 1000⟩).segments
           num_insns := 5 - SegmentationCtx.lastBoundary
             (SegmentationCtx.new ["a"] [2] [3] ⟨5, 1000, 1000⟩).segments
           trace_heights := [7] }] :=
  ⟨by decide,
   segment_list_invariants.2 (SegmentationCtx.new ["a"] [2] [3] ⟨5, 1000, 1000⟩)
     5 [7] [false] (by decide)⟩

/-- Invalid operand formats make the base-ALU emitter fail with
`InvalidInstruction` at the given pc. -/
theorem baseAlu_invalid_error (pc : Nat) (inst : Instruction)
    (h : inst.d ≠ RV32_REGISTER_AS
        ∨ (inst.e ≠ RV32_REGISTER_AS ∧ inst.e ≠ RV32_IMM_AS)) :
    BaseAluExecutor.generate_aot_assembly pc inst
      = .error (.InvalidInstruction pc) := by
  rcases h with hd | ⟨he1, he0⟩
  · simp [BaseAluExecutor.generate_aot_assembly, hd]
  · by_cases hd : inst.d = RV32_REGISTER_AS <;>
      simp [BaseAluExecutor.generate_aot_assembly, hd, he0, he1]

/-- Claim C4: the base-ALU emitter returns `InvalidInstruction(pc)` exactly
when operand `d` is not the register address space or operand `e` is
neither the register nor the immediate address space, and `compile`
propagates that error, aborting compilation. -/
theorem generate_aot_assembly_invalid_iff :
    (∀ (pc : Nat) (inst : Instruction),
      BaseAluExecutor.generate_aot_assembly pc inst
          = .error (.InvalidInstruction pc) ↔
        (inst.d ≠ RV32_REGISTER_AS
          ∨ (inst.e ≠ RV32_REGISTER_AS ∧ inst.e ≠ RV32_IMM_AS)))
    ∧ (∀ (pc pc_start : Nat) (inst : Instruction),
        (inst.d ≠ RV32_REGISTER_AS
          ∨ (inst.e ≠ RV32_REGISTER_AS ∧ inst.e ≠ RV32_IMM_AS)) →
        AotCompiler.compile { program := [(pc, inst)], pc_start := pc_start }
            [BaseAluExecutor.generate_aot_assembly]
          = .error (.InvalidInstruction pc)) := by
  constructor
  · intro pc inst
    constructor
    · intro herr
      by_cases hd : inst.d = RV32_REGISTER_AS
      · by_cases he0 : inst.e = RV32_IMM_AS
        · simp [BaseAluExecutor.generate_aot_assembly, hd, he0] at herr
        · by_cases he1 : inst.e = RV32_REGISTER_AS
          · simp [BaseAluExecutor.generate_aot_assembly, hd, he0, he1] at herr
          · exact Or.inr ⟨he1, he0⟩
      · exact Or.inl hd
    · exact baseAlu_invalid_error pc inst
  · intro pc pc_start inst h
    have herr := baseAlu_invalid_error pc inst h
    simp [AotCompiler.compile, AotCompiler.generate_program_assembly, emitterSearch, herr]

/-- Witness for C4: `d = 1` (register space) but `e = 7` is neither the
register nor the immediate space, so compilation of the one-instruction
program aborts with `InvalidInstruction` at its pc. -/
theorem generate_aot_assembly_invalid_iff_witness :
    ((Instruction.mk .ADD 1 2 3 1 7).d ≠ RV32_REGISTER_AS
      ∨ ((Instruction.mk .ADD 1 2 3 1 7).e ≠ RV32_REGISTER_AS
          ∧ (Instruction.mk .ADD 1 2 3 1 7).e ≠ RV32_IMM_AS))
    ∧ AotCompiler.compile { program := [(8, Instruction.mk .ADD 1 2 3 1 7)], pc_start := 0 }
        [BaseAluExecutor.generate_aot_assembly]
      = .error (.InvalidInstruction 8) :=
  ⟨by decide,
   generate_aot_assembly_invalid_iff.2 8 0 (Instruction.mk .ADD 1 2 3 1 7) (by decide)⟩

/-- Recognizer for the "this emitter does not handle the instruction"
result. -/
def isHandled : Except StaticProgramError (Option (List String)) → Bool
  | .ok none => false
  | _ => true

/-- Claim C10: the base-ALU emitter never answers `Ok(None)`: every
consultation yields a fragment or an `InvalidInstruction` error, so the
compiler's emitter search never continues past it to later emitters or to
the fallback trampoline. -/
theorem baseAlu_always_claims (pc : Nat) (inst : Instruction)
    (rest : List AotEmitter) :
    isHandled (BaseAluExecutor.generate_aot_assembly pc inst) = true
    ∧ emitterSearch (BaseAluExecutor.generate_aot_assembly :: rest) pc inst
        = BaseAluExecutor.generate_aot_assembly pc inst := by
  have key : isHandled (BaseAluExecutor.generate_aot_assembly pc inst) = true := by
    simp only [BaseAluExecutor.generate_aot_assembly]
    split
    · rfl
    · split
      · rfl
      · rfl
  refine ⟨key, ?_⟩
  cases hr : BaseAluExecutor.generate_aot_assembly pc inst with
  | error e => simp [emitterSearch, hr]
  | ok o =>
    cases o with
    | some s => simp [emitterSearch, hr]
    | none => rw [hr] at key; exact absurd key (by simp [isHandled])

/-- A fragment line is a pure comment when it opens with four spaces and a
semicolon, as every comment line of the base-ALU templates does. -/
def isComment (l : String) : Bool := l.data.take 6 == "    ; ".data

/-- The instruction lines of a fragment (comment lines dropped). -/
def instrLines (ls : List String) : List String := ls.filter (fun l => !(isComment l))

/-- Claim C5: folding on the zero register: `AND` with either source equal
to `x0` lowers to a single constant-0 store into `rd`'s buffer slot with
no source-register read, and immediate `ADD` with `rs1 = x0` lowers to a
single store of the immediate into `rd`'s buffer slot. -/
theorem zero_register_folding (rd rs1 rs2 : Nat) (imm : Int) :
    (rs1 = 0 ∨ rs2 = 0 →
      instrLines (generate_and_reg_assembly rd rs1 rs2)
        = ["    mov dword ptr [rbx + " ++ toString (rd * 4 % 256) ++ "], 0  ; x"
            ++ toString rd ++ " = X&0 = 0"])
    ∧ instrLines (generate_add_imm_assembly rd 0 imm)
        = ["    mov dword ptr [rbx + " ++ toString (rd * 4 % 256) ++ "], "
            ++ toString imm ++ "  ; x" ++ toString rd ++ " = " ++ toString imm] := by
  constructor
  · intro h
    unfold generate_and_reg_assembly
    rw [if_pos h]
    rfl
  · rfl

/-- Witness for C5 at `and x5, x0, x7` and `addi x5, x0, 42`. -/
theorem zero_register_folding_witness :
    ((0 : Nat) = 0 ∨ (7 : Nat) = 0)
    ∧ instrLines (generate_and_reg_assembly 5 0 7)
        = ["    mov dword ptr [rbx + 20], 0  ; x5 = X&0 = 0"]
    ∧ instrLines (generate_add_imm_assembly 5 0 42)
        = ["    mov dword ptr [rbx + 20], 42  ; x5 = 42"] :=
  ⟨Or.inl rfl, (zero_register_folding 5 0 7 42).1 (Or.inl rfl),
   (zero_register_folding 5 0 7 42).2⟩

/-- Membership refutation through an evaluated `elem`. -/
theorem not_mem_of_elem_false {α : Type} [BEq α] [LawfulBEq α] {a : α} {l : List α}
    (h : List.elem a l = false) : a ∉ l := fun hm => by
  rw [List.elem_iff.2 hm] at h
  exact Bool.noConfusion h

/-- A base-ALU fragment never contains a definition of the
`openvm_aot_entry` label (every fragment line opens with spaces). -/
theorem baseAlu_fragment_no_entry (pc : Nat) (inst : Instruction) (ls : List String)
    (h : BaseAluExecutor.generate_aot_assembly pc inst = .ok (some ls)) :
    "openvm_aot_entry:" ∉ ls := by
  simp only [BaseAluExecutor.generate_aot_assembly] at h
  split at h
  · exact absurd h (by simp)
  · split at h
    · exact absurd h (by simp)
    · injection h with h1
      injection h1 with h2
      subst h2
      cases inst.opcode <;>
        simp only [generate_add_imm_assembly, generate_add_reg_assembly,
          generate_sub_imm_assembly, generate_sub_reg_assembly,
          generate_xor_imm_assembly, generate_xor_reg_assembly,
          generate_or_imm_assembly, generate_or_reg_assembly,
          generate_and_imm_assembly, generate_and_reg_assembly] <;>
        split_ifs <;>
        exact not_mem_of_elem_false (by rfl)

/-- The program body generated with the base-ALU emitter never defines the
`openvm_aot_entry` label: body lines are pc labels, fragment lines,
housekeeping lines, or blanks. -/
theorem gpa_no_entry_label (progLen : Nat) :
    ∀ (prog : List (Nat × Instruction)) (lines : List String),
    AotCompiler.generate_program_assembly progLen
        [BaseAluExecutor.generate_aot_assembly] prog = .ok lines →
    "openvm_aot_entry:" ∉ lines := by
  intro prog
  induction prog with
  | nil =>
    intro lines h hmem
    injection h with h1
    rw [← h1] at hmem
    exact absurd hmem (List.not_mem_nil _)
  | cons pi rest ih =>
    intro lines h hmem
    obtain ⟨pc, inst⟩ := pi
    simp only [AotCompiler.generate_program_assembly] at h
    cases hb : BaseAluExecutor.generate_aot_assembly pc inst with
    | error e =>
      rw [show emitterSearch [BaseAluExecutor.generate_aot_assembly] pc inst = .error e
        from by simp [emitterSearch, hb]] at h
      exact absurd h (by simp)
    | ok frag =>
      cases hrest : AotCompiler.generate_program_assembly progLen
          [BaseAluExecutor.generate_aot_assembly] rest with
      | error e =>
        rw [hrest] at h
        cases frag with
        | some fl =>
          rw [show emitterSearch [BaseAluExecutor.generate_aot_assembly] pc inst
            = .ok (some fl) from by simp [emitterSearch, hb]] at h
          exact absurd h (by simp)
        | none =>
          rw [show emitterSearch [BaseAluExecutor.generate_aot_assembly] pc inst
            = .ok none from by simp [emitterSearch, hb]] at h
          exact absurd h (by simp)
      | ok restLines =>
        rw [hrest] at h
        cases frag with
        | some fl =>
          rw [show emitterSearch [BaseAluExecutor.generate_aot_assembly] pc inst
            = .ok (some fl) from by simp [emitterSearch, hb]] at h
          injection h with h1
          rw [← h1] at hmem
          rcases List.mem_cons.mp hmem with heq | hmem2
          · exact (ne_of_beq_false (by rfl)) heq.symm
          · rcases List.mem_append.mp hmem2 with hfc | hrest2
            · rcases List.mem_append.mp hfc with hf | hc
              · exact baseAlu_fragment_no_entry pc inst fl hb hf
              · exact not_mem_of_elem_false (by rfl) hc
            · exact ih restLines hrest hrest2
        | none =>
          rw [show emitterSearch [BaseAluExecutor.generate_aot_assembly] pc inst
            = .ok none from by simp [emitterSearch, hb]] at h
          injection h with h1
          rw [← h1] at hmem
          rcases List.mem_append.mp hmem with hc1 | hc2
          · exact not_mem_of_elem_false (by rfl) hc1
          · exact ih restLines hrest hc2

/-- Claim C6 (counterexample): for the empty program the compiler emits
`global openvm_aot_entry` but no line defines an `openvm_aot_entry:` label,
and the runtime resolves `openvm_aot_start`, not `openvm_aot_entry`; so the
assembly does not define the declared entry symbol and the runtime does not
resolve it. -/
theorem entry_symbol_counterexample :
    AotCompiler.compile { program := [], pc_start := 0 } []
      = .ok (AotCompiler.generate_header { program := [], pc_start := 0 }
          ++ [] ++ AotCompiler.generate_footer)
    ∧ "global openvm_aot_entry" ∈
        (AotCompiler.generate_header { program := [], pc_start := 0 }
          ++ [] ++ AotCompiler.generate_footer)
    ∧ "openvm_aot_entry:" ∉
        (AotCompiler.generate_header { program := [], pc_start := 0 }
          ++ [] ++ AotCompiler.generate_footer)
    ∧ AotRuntime.entry_point_symbol ≠ "openvm_aot_entry" :=
  ⟨rfl, by decide, by decide, by decide⟩

/-- Claim C6 (amended): for every program compiled with the base-ALU
emitter list, the generated assembly declares `openvm_aot_entry` global but
never defines it as a label; the label it defines is `openvm_aot_start`,
and the runtime resolves `openvm_aot_start`. -/
theorem entry_symbol_amended (exe : VmExe) (lines : List String)
    (h : AotCompiler.compile exe [BaseAluExecutor.generate_aot_assembly] = .ok lines) :
    "global openvm_aot_entry" ∈ lines
    ∧ "openvm_aot_start:" ∈ lines
    ∧ "openvm_aot_entry:" ∉ lines
    ∧ AotRuntime.entry_point_symbol = "openvm_aot_start" := by
  unfold AotCompiler.compile at h
  cases hbody : AotCompiler.generate_program_assembly exe.program.length
      [BaseAluExecutor.generate_aot_assembly] exe.program with
  | error e =>
    rw [hbody] at h
    exact absurd h (by simp)
  | ok body =>
    rw [hbody] at h
    injection h with h1
    rw [← h1]
    refine ⟨?_, ?_, ?_, rfl⟩
    · exact List.mem_append.mpr (Or.inl (List.mem_append.mpr
        (Or.inl (List.mem_of_elem_eq_true (by rfl)))))
    · exact List.mem_append.mpr (Or.inl (List.mem_append.mpr
        (Or.inl (List.mem_of_elem_eq_true (by rfl)))))
    · intro hmem
      rcases List.mem_append.mp hmem with hhb | hf
      · rcases List.mem_append.mp hhb with hh | hbdy
        · exact not_mem_of_elem_false (by rfl) hh
        · exact gpa_no_entry_label exe.program.length exe.program body hbody hbdy
      · exact not_mem_of_elem_false (by rfl) hf

/-- A one-instruction example program (`addi x10, x0, 42`). -/
def aotExampleExe : VmExe :=
  { program := [(0, Instruction.mk .ADD 10 0 42 1 0)], pc_start := 0 }

/-- The assembly the compiler produces for `aotExampleExe`. -/
def aotExampleLines : List String :=
  match AotCompiler.compile aotExampleExe [BaseAluExecutor.generate_aot_assembly] with
  | .ok ls => ls
  | .error _ => []

/-- Witness for the amended C6 at `aotExampleExe`. -/
theorem entry_symbol_amended_witness :
    AotCompiler.compile aotExampleExe [BaseAluExecutor.generate_aot_assembly]
      = .ok aotExampleLines
    ∧ ("global openvm_aot_entry" ∈ aotExampleLines
      ∧ "openvm_aot_start:" ∈ aotExampleLines
      ∧ "openvm_aot_entry:" ∉ aotExampleLines
      ∧ AotRuntime.entry_point_symbol = "openvm_aot_start") :=
  ⟨rfl, entry_symbol_amended aotExampleExe aotExampleLines rfl⟩

/-- Claim C7 (counterexample): on a host that is neither Linux nor macOS
the builder does fail with the unsupported-platform error, but only after
the assembly and handler source files have been written, so the error is
not raised "before any file is written". -/
theorem build_unsupported_counterexample :
    (AotRuntimeBuilder.build "windows" true true true true).2
      = .error "Unsupported platform for AOT compilation"
    ∧ (AotRuntimeBuilder.build "windows" true true true true).1
      = [BuildEvent.writeFile "aot.asm", BuildEvent.writeFile "handler.c"]
    ∧ (AotRuntimeBuilder.build "windows" true true true true).1 ≠ [] :=
  ⟨rfl, rfl, by decide⟩

/-- Claim C7 (amended): on a host OS that is neither Linux nor macOS, the
build fails with the unsupported-platform error after writing exactly the
assembly and handler-source files, before invoking any external tool. -/
theorem build_unsupported_platform (target_os : String)
    (nasm_ok gcc_ok link_ok load_ok : Bool)
    (h1 : target_os ≠ "linux") (h2 : target_os ≠ "macos") :
    AotRuntimeBuilder.build target_os nasm_ok gcc_ok link_ok load_ok
      = ([BuildEvent.writeFile "aot.asm", BuildEvent.writeFile "handler.c"],
         .error "Unsupported platform for AOT compilation") := by
  unfold AotRuntimeBuilder.build
  rw [if_pos ⟨h2, h1⟩]

/-- Witness for the amended C7 on the host string `windows`. -/
theorem build_unsupported_platform_witness :
    ("windows" ≠ "linux") ∧ ("windows" ≠ "macos")
    ∧ AotRuntimeBuilder.build "windows" true true true true
      = ([BuildEvent.writeFile "aot.asm", BuildEvent.writeFile "handler.c"],
         .error "Unsupported platform for AOT compilation") :=
  ⟨by decide, by decide,
   build_unsupported_platform "windows" true true true true (by decide) (by decide)⟩
